import Mathlib

/-!
Shallow embedding of the churn-risk rule engine of `src/core/rules`
(`rules.ts`, `engine.ts`, `types.ts`) of the churn_pilot repository.

Timestamps are modelled as integer milliseconds since the epoch.  The
TypeScript engine reads the wall clock (`new Date()`) inside `daysSince`;
the embedding makes that clock instant an explicit argument `now`, with
both reads of one `evaluateAccount` call observing the same instant.
`date-fns`'s `differenceInDays` returns the number of full days between
the two instants, truncating toward zero, which `Int.quot` models.
-/

namespace ChurnPilot

/-- `RiskLevel` from `types.ts`: HIGH | MEDIUM | HEALTHY. -/
inductive RiskLevel where
  | HIGH
  | MEDIUM
  | HEALTHY
deriving DecidableEq, Repr

/-- `Action` from `types.ts`: SEND_MESSAGE | DO_NOTHING. -/
inductive Action where
  | SEND_MESSAGE
  | DO_NOTHING
deriving DecidableEq, Repr

/-- `usage_freq` values: DAILY | WEEKLY. -/
inductive UsageFreq where
  | DAILY
  | WEEKLY
deriving DecidableEq, Repr

/-- `billing_status` values: ACTIVE | PAYMENT_FAILED | CANCELING | CANCELED. -/
inductive BillingStatus where
  | ACTIVE
  | PAYMENT_FAILED
  | CANCELING
  | CANCELED
deriving DecidableEq, Repr

/-- `Account` from `types.ts`.  Timestamp strings become integer instants
(milliseconds); `last_active_at` keeps its nullability as `Option`. -/
structure Account where
  _id : String
  founder_id : String
  email : String
  name : Option String
  mrr : Int
  last_active_at : Option Int
  activated : Bool
  core_used : Bool
  usage_freq : UsageFreq
  billing_status : BillingStatus
  cancel_at_period_end : Bool
  stripe_customer_id : Option String
  stripe_subscription_id : Option String
  created_at : Int
  updated_at : Int
deriving DecidableEq, Repr

/-- `RuleResult` from `types.ts`. -/
structure RuleResult where
  ruleId : String
  ruleName : String
  riskLevel : RiskLevel
  reason : String
  suggestedAction : Action
deriving DecidableEq, Repr

/-- `ChurnRule` from `types.ts`: a rule record with an embedded predicate
over (account, accountAgeDays, daysSinceActive) and a reason generator. -/
structure ChurnRule where
  id : String
  name : String
  riskLevel : RiskLevel
  suggestedAction : Action
  evaluate : Account → Int → Option Int → Bool
  getReason : Account → String

/-- Milliseconds in one day. -/
def msPerDay : Int := 86400000

/-- `differenceInDays` of date-fns: full days between two instants,
truncated toward zero. -/
def differenceInDays (laterDate earlierDate : Int) : Int :=
  Int.tdiv (laterDate - earlierDate) msPerDay

/-- `daysSince` from `engine.ts`: null date gives null, otherwise the
day difference between `now` and the date. -/
def daysSince (now : Int) (date : Option Int) : Option Int :=
  match date with
  | none => none
  | some d => some (differenceInDays now d)

/-- `H4_PreCancel` from `rules.ts`. -/
def H4_PreCancel : ChurnRule where
  id := "H4"
  name := "Pre-Cancel"
  riskLevel := RiskLevel.HIGH
  suggestedAction := Action.SEND_MESSAGE
  evaluate := fun account _ _ => decide (account.cancel_at_period_end = true)
  getReason := fun _ => "User has requested to cancel at period end."

/-- `H3_PaymentFailure` from `rules.ts`. -/
def H3_PaymentFailure : ChurnRule where
  id := "H3"
  name := "Payment Failure"
  riskLevel := RiskLevel.HIGH
  suggestedAction := Action.SEND_MESSAGE
  evaluate := fun account _ _ => decide (account.billing_status = BillingStatus.PAYMENT_FAILED)
  getReason := fun _ => "Payment failed on last invoice."

/-- `H2_NeverActivated` from `rules.ts`. -/
def H2_NeverActivated : ChurnRule where
  id := "H2"
  name := "Never Activated"
  riskLevel := RiskLevel.HIGH
  suggestedAction := Action.SEND_MESSAGE
  evaluate := fun account accountAgeDays _ =>
    decide (account.activated = false) && decide (accountAgeDays > 7)
  getReason := fun _ => "Never reached first value after signup."

/-- `H1_SilentDropoff` from `rules.ts`: early return on not-activated or
null `daysSinceActive`; threshold 7 for DAILY, 14 otherwise. -/
def H1_SilentDropoff : ChurnRule where
  id := "H1"
  name := "Silent Drop-off"
  riskLevel := RiskLevel.HIGH
  suggestedAction := Action.SEND_MESSAGE
  evaluate := fun account _ daysSinceActive =>
    match account.activated, daysSinceActive with
    | false, _ => false
    | true, none => false
    | true, some d =>
      decide (d > (if account.usage_freq = UsageFreq.DAILY then (7 : Int) else 14))
  getReason := fun account =>
    let freq := if account.usage_freq = UsageFreq.DAILY then "daily" else "weekly"
    s!"Stopped using product after activation (expected {freq} usage)."

/-- `M1_LowEngagement` from `rules.ts`. -/
def M1_LowEngagement : ChurnRule where
  id := "M1"
  name := "Low Engagement"
  riskLevel := RiskLevel.MEDIUM
  suggestedAction := Action.SEND_MESSAGE
  evaluate := fun account _ daysSinceActive =>
    match daysSinceActive with
    | none => false
    | some d => decide (d > 4) && decide (account.core_used = false)
  getReason := fun _ => "Low engagement, has not used core feature."

/-- `Healthy` from `rules.ts`: always matches as fallback. -/
def Healthy : ChurnRule where
  id := "G1"
  name := "Healthy"
  riskLevel := RiskLevel.HEALTHY
  suggestedAction := Action.DO_NOTHING
  evaluate := fun _ _ _ => true
  getReason := fun _ => "Healthy usage patterns."

/-- `RULES_IN_ORDER` from `rules.ts`: priority order, first match wins. -/
def RULES_IN_ORDER : List ChurnRule :=
  [H4_PreCancel, H3_PaymentFailure, H2_NeverActivated, H1_SilentDropoff,
   M1_LowEngagement, Healthy]

/-- The result record the loop body of `evaluateAccount` builds from the
first matching rule: id, name, risk level and action copied verbatim,
reason computed from the account. -/
def resultOf (rule : ChurnRule) (account : Account) : RuleResult where
  ruleId := rule.id
  ruleName := rule.name
  riskLevel := rule.riskLevel
  reason := rule.getReason account
  suggestedAction := rule.suggestedAction

/-- `evaluateAccount` from `engine.ts`.  `now` is the wall-clock instant
the TypeScript code reads internally via `new Date()`.  The `for` loop
returning the first matching rule is `List.find?`; the trailing literal
is the (unreachable) fallback after the loop. -/
def evaluateAccount (account : Account) (now : Int) : RuleResult :=
  let accountAgeDays := (daysSince now (some account.created_at)).getD 0
  let daysSinceActive := daysSince now account.last_active_at
  match RULES_IN_ORDER.find?
      (fun rule => rule.evaluate account accountAgeDays daysSinceActive) with
  | some rule => resultOf rule account
  | none =>
    { ruleId := "G1", ruleName := "Healthy", riskLevel := RiskLevel.HEALTHY,
      reason := "Healthy usage patterns.", suggestedAction := Action.DO_NOTHING }

/-- One entry of the batch evaluator's output: `{ account, result }`. -/
structure EvalPair where
  account : Account
  result : RuleResult
deriving DecidableEq, Repr

/-- `evaluateAccounts` from `engine.ts`: map `evaluateAccount` over the
collection; with `riskOnly` keep only entries whose risk level is not
HEALTHY. -/
def evaluateAccounts (accounts : List Account) (now : Int) (riskOnly : Bool) :
    List EvalPair :=
  let results := accounts.map
    (fun account => { account := account, result := evaluateAccount account now })
  if riskOnly then
    results.filter (fun r => decide (r.result.riskLevel ≠ RiskLevel.HEALTHY))
  else
    results

/-- The three buckets `groupByRisk` returns. -/
structure RiskGroups where
  HIGH : List EvalPair
  MEDIUM : List EvalPair
  HEALTHY : List EvalPair
deriving DecidableEq, Repr

/-- `groupByRisk` from `engine.ts`: evaluate all accounts, then filter the
result list once per risk level. -/
def groupByRisk (accounts : List Account) (now : Int) : RiskGroups :=
  let results := evaluateAccounts accounts now false
  { HIGH := results.filter (fun r => decide (r.result.riskLevel = RiskLevel.HIGH)),
    MEDIUM := results.filter (fun r => decide (r.result.riskLevel = RiskLevel.MEDIUM)),
    HEALTHY := results.filter (fun r => decide (r.result.riskLevel = RiskLevel.HEALTHY)) }

/-- The fallback result of rule G1 (also the literal after the loop in
`evaluateAccount`). -/
def healthyResult : RuleResult :=
  { ruleId := "G1", ruleName := "Healthy", riskLevel := RiskLevel.HEALTHY,
    reason := "Healthy usage patterns.", suggestedAction := Action.DO_NOTHING }

/-- The rule table of spec section 4.2 written as an explicit first-match
if-chain, following the spec's words (priority order H4, H3, H2, H1, M1,
then the G1 catch-all; strict greater-than at every threshold; H1 and M1
skipped when `last_active_at` is null).  `evaluateAccount_eq_spec` proves
the engine refines it. -/
def specEvaluate (a : Account) (now : Int) : RuleResult :=
  if a.cancel_at_period_end = true then
    { ruleId := "H4", ruleName := "Pre-Cancel", riskLevel := RiskLevel.HIGH,
      reason := "User has requested to cancel at period end.",
      suggestedAction := Action.SEND_MESSAGE }
  else if a.billing_status = BillingStatus.PAYMENT_FAILED then
    { ruleId := "H3", ruleName := "Payment Failure", riskLevel := RiskLevel.HIGH,
      reason := "Payment failed on last invoice.", suggestedAction := Action.SEND_MESSAGE }
  else if a.activated = false ∧ differenceInDays now a.created_at > 7 then
    { ruleId := "H2", ruleName := "Never Activated", riskLevel := RiskLevel.HIGH,
      reason := "Never reached first value after signup.",
      suggestedAction := Action.SEND_MESSAGE }
  else
    match a.last_active_at with
    | none => healthyResult
    | some t =>
      if a.activated = true ∧
          differenceInDays now t >
            (if a.usage_freq = UsageFreq.DAILY then (7 : Int) else 14) then
        let freq := if a.usage_freq = UsageFreq.DAILY then "daily" else "weekly"
        { ruleId := "H1", ruleName := "Silent Drop-off", riskLevel := RiskLevel.HIGH,
          reason := s!"Stopped using product after activation (expected {freq} usage).",
          suggestedAction := Action.SEND_MESSAGE }
      else if differenceInDays now t > 4 ∧ a.core_used = false then
        { ruleId := "M1", ruleName := "Low Engagement", riskLevel := RiskLevel.MEDIUM,
          reason := "Low engagement, has not used core feature.",
          suggestedAction := Action.SEND_MESSAGE }
      else healthyResult

/-- A concrete account with healthy attributes, used to instantiate the
theorems below: activated, core feature used, DAILY cadence, active
billing, no cancellation, created and last active at instant 0. -/
def baseAccount : Account where
  _id := "acc-1"
  founder_id := "founder-1"
  email := "customer@example.com"
  name := some "Test Customer"
  mrr := 99
  last_active_at := some 0
  activated := true
  core_used := true
  usage_freq := UsageFreq.DAILY
  billing_status := BillingStatus.ACTIVE
  cancel_at_period_end := false
  stripe_customer_id := some "cus_test"
  stripe_subscription_id := some "sub_test"
  created_at := 0
  updated_at := 0

/-- `baseAccount` with every rule-relevant field unchanged and every
rule-irrelevant field (_id, founder_id, email, name, mrr, stripe ids,
updated_at) different. -/
def baseAccountIrrelevantDiff : Account where
  _id := "acc-2"
  founder_id := "founder-2"
  email := "other@example.com"
  name := none
  mrr := 12345
  last_active_at := some 0
  activated := true
  core_used := true
  usage_freq := UsageFreq.DAILY
  billing_status := BillingStatus.ACTIVE
  cancel_at_period_end := false
  stripe_customer_id := none
  stripe_subscription_id := none
  created_at := 0
  updated_at := 987654321

/-- `baseAccount` with `last_active_at` null (never recorded activity). -/
def neverActiveAccount : Account :=
  { baseAccount with last_active_at := none }

/-!
Helper lemmas shared by the claim theorems below.
-/

/-- The G1 catch-all always matches, so the first-match search of
`evaluateAccount` always finds a rule. -/
theorem find?_rules_isSome (a : Account) (age : Int) (dsa : Option Int) :
    (RULES_IN_ORDER.find? (fun rule => rule.evaluate a age dsa)).isSome = true := by
  apply List.find?_isSome.mpr
  exact ⟨Healthy, by simp [RULES_IN_ORDER], by simp [Healthy]⟩

/-- `evaluateAccount` returns the result record of some rule of the
priority list. -/
theorem evaluateAccount_mem_rules (a : Account) (now : Int) :
    ∃ rule, rule ∈ RULES_IN_ORDER ∧ evaluateAccount a now = resultOf rule a := by
  obtain ⟨r, hr⟩ := Option.isSome_iff_exists.mp
    (find?_rules_isSome a ((daysSince now (some a.created_at)).getD 0)
      (daysSince now a.last_active_at))
  exact ⟨r, List.mem_of_find?_eq_some hr, by simp only [evaluateAccount, hr]⟩

set_option maxHeartbeats 1000000 in
/-- Refinement: the engine's loop equals the spec's first-match if-chain. -/
theorem evaluateAccount_eq_spec (a : Account) (now : Int) :
    evaluateAccount a now = specEvaluate a now := by
  rcases hla : a.last_active_at with _ | t
  · cases hc : a.cancel_at_period_end <;>
    by_cases hb : a.billing_status = BillingStatus.PAYMENT_FAILED <;>
    cases hact : a.activated <;>
    by_cases h2 : (7 : Int) < differenceInDays now a.created_at <;>
    simp [evaluateAccount, specEvaluate, daysSince, RULES_IN_ORDER, List.find?,
      H4_PreCancel, H3_PaymentFailure, H2_NeverActivated, H1_SilentDropoff,
      M1_LowEngagement, Healthy, resultOf, healthyResult, hla, hc, hb, hact, h2]
  · cases hc : a.cancel_at_period_end <;>
    by_cases hb : a.billing_status = BillingStatus.PAYMENT_FAILED <;>
    cases hact : a.activated <;>
    cases hcu : a.core_used <;>
    rcases huf : a.usage_freq <;>
    by_cases h2 : (7 : Int) < differenceInDays now a.created_at <;>
    by_cases hd7 : (7 : Int) < differenceInDays now t <;>
    by_cases hd14 : (14 : Int) < differenceInDays now t <;>
    by_cases hm4 : (4 : Int) < differenceInDays now t <;>
    simp [evaluateAccount, specEvaluate, daysSince, RULES_IN_ORDER, List.find?,
      H4_PreCancel, H3_PaymentFailure, H2_NeverActivated, H1_SilentDropoff,
      M1_LowEngagement, Healthy, resultOf, healthyResult, hla, hc, hb, hact, hcu,
      huf, h2, hd7, hd14, hm4]

/-- Filtering one list of evaluated pairs by each of the three risk levels
splits its length exactly. -/
theorem filter_riskLevel_length (l : List EvalPair) :
    (l.filter (fun r => decide (r.result.riskLevel = RiskLevel.HIGH))).length
      + (l.filter (fun r => decide (r.result.riskLevel = RiskLevel.MEDIUM))).length
      + (l.filter (fun r => decide (r.result.riskLevel = RiskLevel.HEALTHY))).length
      = l.length := by
  induction l with
  | nil => simp
  | cons x xs ih =>
    cases h : x.result.riskLevel <;>
      simp only [List.filter_cons, h, List.length_cons, decide_eq_true_eq] <;>
      simp <;> omega

/-!
Claim theorems.
-/

/-- C1: Totality — for every account and instant, the first-match search
always finds a rule (the catch-all G1, last in `RULES_IN_ORDER`, matches
whenever no earlier rule does), and `evaluateAccount` returns exactly one
`RuleResult` whose risk level is HIGH, MEDIUM or HEALTHY; being a total
function it never throws and never yields an empty result. -/
theorem evaluateAccount_total (a : Account) (now : Int) :
    (RULES_IN_ORDER.find? (fun rule =>
        rule.evaluate a ((daysSince now (some a.created_at)).getD 0)
          (daysSince now a.last_active_at))).isSome = true ∧
    ((evaluateAccount a now).riskLevel = RiskLevel.HIGH ∨
      (evaluateAccount a now).riskLevel = RiskLevel.MEDIUM ∨
      (evaluateAccount a now).riskLevel = RiskLevel.HEALTHY) := by
  refine ⟨find?_rules_isSome a _ _, ?_⟩
  cases h : (evaluateAccount a now).riskLevel <;> simp

/-- C2: Priority exclusivity (first match wins) — an account with
`cancel_at_period_end = true` always yields rule id "H4" whatever its
other fields; an account with `cancel_at_period_end = false` and
`billing_status = PAYMENT_FAILED` always yields "H3", even when the H1
predicate also holds. -/
theorem evaluateAccount_first_match_priority (a : Account) (now : Int) :
    (a.cancel_at_period_end = true → (evaluateAccount a now).ruleId = "H4") ∧
    (a.cancel_at_period_end = false → a.billing_status = BillingStatus.PAYMENT_FAILED →
      (evaluateAccount a now).ruleId = "H3") := by
  constructor
  · intro h
    simp [evaluateAccount, RULES_IN_ORDER, List.find?, H4_PreCancel, h, resultOf]
  · intro h hb
    simp [evaluateAccount, RULES_IN_ORDER, List.find?, H4_PreCancel,
      H3_PaymentFailure, h, hb, resultOf]

/-- C3: Boundary exactness — every threshold is strict greater-than: H2
fires iff not activated and account age exceeds 7 days; H1 fires iff
activated with a non-null days-since-active exceeding 7 (DAILY) or 14
(otherwise); M1 fires iff days-since-active is non-null, exceeds 4, and
the core feature is unused. -/
theorem rule_threshold_boundaries (a : Account) (age : Int) (dsa : Option Int) :
    (H2_NeverActivated.evaluate a age dsa = true ↔ a.activated = false ∧ age > 7) ∧
    (H1_SilentDropoff.evaluate a age dsa = true ↔
      a.activated = true ∧ ∃ d, dsa = some d ∧
        d > (if a.usage_freq = UsageFreq.DAILY then (7 : Int) else 14)) ∧
    (M1_LowEngagement.evaluate a age dsa = true ↔
      ∃ d, dsa = some d ∧ d > 4 ∧ a.core_used = false) := by
  refine ⟨?_, ?_, ?_⟩
  · simp [H2_NeverActivated]
  · cases hact : a.activated <;> rcases dsa with _ | d <;> simp [H1_SilentDropoff, hact]
  · rcases dsa with _ | d <;> simp [M1_LowEngagement]

/-- C4: Null-safety — when `last_active_at` is null the derived
days-since-active is null, so rules H1 and M1 never fire: the returned
rule id is never "H1" or "M1", and is one of "H4", "H3", "H2", "G1". -/
theorem evaluateAccount_null_safety (a : Account) (now : Int)
    (ha : a.last_active_at = none) :
    (evaluateAccount a now).ruleId ≠ "H1" ∧ (evaluateAccount a now).ruleId ≠ "M1" ∧
    ((evaluateAccount a now).ruleId = "H4" ∨ (evaluateAccount a now).ruleId = "H3" ∨
      (evaluateAccount a now).ruleId = "H2" ∨ (evaluateAccount a now).ruleId = "G1") := by
  cases hc : a.cancel_at_period_end <;>
  by_cases hb : a.billing_status = BillingStatus.PAYMENT_FAILED <;>
  cases hact : a.activated <;>
  by_cases h2 : (7 : Int) < differenceInDays now a.created_at <;>
  simp [evaluateAccount, daysSince, ha, RULES_IN_ORDER, List.find?, H4_PreCancel,
    H3_PaymentFailure, H2_NeverActivated, H1_SilentDropoff, M1_LowEngagement,
    Healthy, resultOf, hc, hb, hact, h2]

/-- Witness for C4 at the concrete never-active account and instant 0. -/
theorem evaluateAccount_null_safety_witness :
    neverActiveAccount.last_active_at = none ∧
    ((evaluateAccount neverActiveAccount 0).ruleId ≠ "H1" ∧
      (evaluateAccount neverActiveAccount 0).ruleId ≠ "M1" ∧
      ((evaluateAccount neverActiveAccount 0).ruleId = "H4" ∨
        (evaluateAccount neverActiveAccount 0).ruleId = "H3" ∨
        (evaluateAccount neverActiveAccount 0).ruleId = "H2" ∨
        (evaluateAccount neverActiveAccount 0).ruleId = "G1")) :=
  ⟨rfl, evaluateAccount_null_safety neverActiveAccount 0 rfl⟩

/-- C5 counterexample: the claim says `evaluateAccount` takes the current
instant as an explicit parameter, so repeated calls agree; but
`engine.ts` declares `evaluateAccount(account)` and reads `new Date()`
inside `daysSince`, so two calls of the one-argument function whose
ambient clock moved from day 7 to day 8 return different results for the
same DAILY account (healthy, then H1). -/
theorem evaluateAccount_wallclock_counterexample :
    (evaluateAccount baseAccount (7 * 86400000)).ruleId = "G1" ∧
    (evaluateAccount baseAccount (8 * 86400000)).ruleId = "H1" := by
  constructor <;> decide

/-- C5 (amended): `evaluateAccount` reads the clock internally rather
than taking it as a parameter; modelling the instant it reads as the
explicit argument `now`, evaluation is deterministic — two calls of the
pure evaluator observing the same account and the same instant return
the identical `RuleResult` (all five fields). -/
theorem evaluateAccount_deterministic (a : Account) (t₁ t₂ : Int) (h : t₁ = t₂) :
    evaluateAccount a t₁ = evaluateAccount a t₂ := by
  rw [h]

/-- Witness for the amended C5 at the concrete base account, instant 0. -/
theorem evaluateAccount_deterministic_witness :
    evaluateAccount baseAccount 0 = evaluateAccount baseAccount 0 :=
  evaluateAccount_deterministic baseAccount 0 0 rfl

/-- C6: Batch consistency — without the risk-only flag the batch
evaluator returns exactly one account/result pair per input, in input
order, each result being `evaluateAccount` of that account; with the
flag it returns exactly the non-HEALTHY pairs, an order-preserving
sublist of the full output. -/
theorem evaluateAccounts_batch_consistency (accounts : List Account) (now : Int) :
    evaluateAccounts accounts now false =
      accounts.map (fun a => { account := a, result := evaluateAccount a now }) ∧
    (evaluateAccounts accounts now false).length = accounts.length ∧
    List.Sublist (evaluateAccounts accounts now true) (evaluateAccounts accounts now false) ∧
    (∀ p : EvalPair, p ∈ evaluateAccounts accounts now true ↔
      p ∈ evaluateAccounts accounts now false ∧ p.result.riskLevel ≠ RiskLevel.HEALTHY) := by
  refine ⟨rfl, by simp [evaluateAccounts], ?_, ?_⟩
  · exact List.filter_sublist
      (p := fun r : EvalPair => decide (r.result.riskLevel ≠ RiskLevel.HEALTHY))
      (accounts.map (fun a => { account := a, result := evaluateAccount a now }))
  · intro p
    simp [evaluateAccounts, List.mem_filter]

/-- C7: Grouping completeness — the three buckets of `groupByRisk`
partition the evaluated input exactly: their sizes sum to the input
size, a pair lies in a bucket iff it is an evaluated pair whose risk
level matches that bucket (hence each pair lies in exactly one bucket),
and each bucket preserves the original relative order as a sublist of
the full evaluation. -/
theorem groupByRisk_partition (accounts : List Account) (now : Int) :
    (groupByRisk accounts now).HIGH.length + (groupByRisk accounts now).MEDIUM.length
        + (groupByRisk accounts now).HEALTHY.length = accounts.length ∧
    (∀ p : EvalPair,
      (p ∈ (groupByRisk accounts now).HIGH ↔
        p ∈ evaluateAccounts accounts now false ∧ p.result.riskLevel = RiskLevel.HIGH) ∧
      (p ∈ (groupByRisk accounts now).MEDIUM ↔
        p ∈ evaluateAccounts accounts now false ∧ p.result.riskLevel = RiskLevel.MEDIUM) ∧
      (p ∈ (groupByRisk accounts now).HEALTHY ↔
        p ∈ evaluateAccounts accounts now false ∧ p.result.riskLevel = RiskLevel.HEALTHY)) ∧
    List.Sublist (groupByRisk accounts now).HIGH (evaluateAccounts accounts now false) ∧
    List.Sublist (groupByRisk accounts now).MEDIUM (evaluateAccounts accounts now false) ∧
    List.Sublist (groupByRisk accounts now).HEALTHY (evaluateAccounts accounts now false) := by
  have hlen : (evaluateAccounts accounts now false).length = accounts.length := by
    simp [evaluateAccounts]
  refine ⟨?_, ?_, ?_, ?_, ?_⟩
  · have h := filter_riskLevel_length (evaluateAccounts accounts now false)
    simp only [groupByRisk]
    omega
  · intro p
    refine ⟨?_, ?_, ?_⟩ <;> simp [groupByRisk, List.mem_filter]
  · simpa only [groupByRisk] using
      List.filter_sublist (l := evaluateAccounts accounts now false)
  · simpa only [groupByRisk] using
      List.filter_sublist (l := evaluateAccounts accounts now false)
  · simpa only [groupByRisk] using
      List.filter_sublist (l := evaluateAccounts accounts now false)

/-- C8: Result-field consistency — the returned record is always built
verbatim (`resultOf`) from one rule of the priority list, so a HEALTHY
result always carries DO_NOTHING (only G1 is HEALTHY), and every HIGH or
MEDIUM result carries SEND_MESSAGE. -/
theorem evaluateAccount_result_fields (a : Account) (now : Int) :
    (∃ rule, rule ∈ RULES_IN_ORDER ∧ evaluateAccount a now = resultOf rule a) ∧
    ((evaluateAccount a now).riskLevel = RiskLevel.HEALTHY →
      (evaluateAccount a now).suggestedAction = Action.DO_NOTHING) ∧
    ((evaluateAccount a now).riskLevel = RiskLevel.HIGH ∨
        (evaluateAccount a now).riskLevel = RiskLevel.MEDIUM →
      (evaluateAccount a now).suggestedAction = Action.SEND_MESSAGE) := by
  obtain ⟨r, hmem, heq⟩ := evaluateAccount_mem_rules a now
  refine ⟨⟨r, hmem, heq⟩, ?_, ?_⟩ <;> rw [heq] <;> clear heq <;> fin_cases hmem <;>
    simp [resultOf, H4_PreCancel, H3_PaymentFailure, H2_NeverActivated,
      H1_SilentDropoff, M1_LowEngagement, Healthy]

/-- C9: No mutation (frame) — the evaluators are pure functions of
immutable values in this model; the account records of every output of
`evaluateAccounts` and `groupByRisk` are the input records themselves,
unchanged: the full batch output maps back to the input list exactly,
and every filtered output maps back to a sublist of it. -/
theorem engine_no_mutation (accounts : List Account) (now : Int) :
    (evaluateAccounts accounts now false).map EvalPair.account = accounts ∧
    List.Sublist ((evaluateAccounts accounts now true).map EvalPair.account) accounts ∧
    List.Sublist (((groupByRisk accounts now).HIGH).map EvalPair.account) accounts ∧
    List.Sublist (((groupByRisk accounts now).MEDIUM).map EvalPair.account) accounts ∧
    List.Sublist (((groupByRisk accounts now).HEALTHY).map EvalPair.account) accounts := by
  have hbase : (evaluateAccounts accounts now false).map EvalPair.account = accounts := by
    simp [evaluateAccounts, List.map_map, Function.comp_def]
  have hsub : ∀ q : EvalPair → Bool,
      List.Sublist (((evaluateAccounts accounts now false).filter q).map EvalPair.account)
        accounts := by
    intro q
    have h := List.Sublist.map EvalPair.account
      (List.filter_sublist (p := q) (evaluateAccounts accounts now false))
    rwa [hbase] at h
  exact ⟨hbase, hsub _, hsub _, hsub _, hsub _⟩

/-- C10: Noninterference — the outcome depends only on the seven fields
cancel_at_period_end, billing_status, activated, core_used, usage_freq,
created_at and last_active_at: two accounts agreeing on them evaluate to
the identical result at any instant; _id, founder_id, email, name, mrr,
the stripe ids and updated_at never influence it. -/
theorem evaluateAccount_noninterference (a b : Account) (now : Int)
    (h1 : a.cancel_at_period_end = b.cancel_at_period_end)
    (h2 : a.billing_status = b.billing_status)
    (h3 : a.activated = b.activated)
    (h4 : a.core_used = b.core_used)
    (h5 : a.usage_freq = b.usage_freq)
    (h6 : a.created_at = b.created_at)
    (h7 : a.last_active_at = b.last_active_at) :
    evaluateAccount a now = evaluateAccount b now := by
  rw [evaluateAccount_eq_spec, evaluateAccount_eq_spec]
  simp only [specEvaluate, healthyResult, h1, h2, h3, h4, h5, h6, h7]

/-- Witness for C10: two concrete accounts differing in every
rule-irrelevant field evaluate identically. -/
theorem evaluateAccount_noninterference_witness :
    evaluateAccount baseAccount 5 = evaluateAccount baseAccountIrrelevantDiff 5 :=
  evaluateAccount_noninterference baseAccount baseAccountIrrelevantDiff 5
    rfl rfl rfl rfl rfl rfl rfl

end ChurnPilot
